import Mathlib

/-!
Shallow embedding of the timetable-generation engine of
`src/backend/app/schedule_generator.py` (class `ScheduleGenerator`), together
with proofs of the specification claims about it.

Modelling conventions:
* Python lists/dicts become Lean `List`s / association lists (Python dicts
  preserve insertion order, so an association list is a faithful model).
* Python `Optional[str]` becomes `Option String`; Python truthiness of a
  string (`if s:`) is `s ≠ ""`, of an optional string it also treats `None`
  as falsy.
* `next((x for x in xs if p x), None)` becomes `xs.find? p`.
* Machine integers are `Nat`/`Int`; all the arithmetic in the source is on
  small non-negative quantities except priorities/scores, which are `Int`.
* String splitting/trimming/parsing is re-implemented over `List Char`
  (structural recursion) so every definition evaluates inside the kernel.
* `datetime.now()`-derived slot ids and `created_at` timestamps are wall
  clock dependent and carry no scheduling information; candidate slots get
  the constant id `""` and no timestamp field.
* The source's `logger.info` side effect is not modelled; the `self.logs`
  list (the observable output) is.
-/

namespace Sched

/-! ### Character-list string utilities

Python `str.split(sep)` (non-empty `sep`), `str.strip`, `int(str)` and
`f"{n:02d}"` re-implemented with fuel/structural recursion so that they
reduce in the kernel. -/

/-- One step of Python `str.split(sep)` over character lists.  The fuel is
an upper bound on the number of characters consumed; callers pass the length
of the input, which suffices because every step consumes at least one
character (the separators used in the source, `", "` and `":"`, are
non-empty). -/
def split_fuel (sep : List Char) : Nat → List Char → List Char → List (List Char)
  | _, [], acc => [acc.reverse]
  | 0, l, acc => [acc.reverse ++ l]
  | Nat.succ fuel, c :: cs, acc =>
    if sep ≠ [] ∧ sep.isPrefixOf (c :: cs) then
      acc.reverse :: split_fuel sep fuel ((c :: cs).drop sep.length) []
    else
      split_fuel sep fuel cs (c :: acc)

/-- Python `s.split(sep)` for a non-empty separator. -/
def split_on_str (s sep : String) : List String :=
  (split_fuel sep.data s.data.length s.data []).map String.mk

/-- ASCII whitespace test used by Python `str.strip` (the source only ever
strips the specialization field, which contains subject ids and `", "`). -/
def is_space_char (c : Char) : Bool :=
  c == ' ' || c == '\t' || c == '\n' || c == '\r'

/-- Python `s.strip()` over character lists. -/
def trim_chars (l : List Char) : List Char :=
  ((l.dropWhile is_space_char).reverse.dropWhile is_space_char).reverse

/-- Digit value of an ASCII character. -/
def digit_val (c : Char) : Option Nat :=
  if 48 ≤ c.toNat ∧ c.toNat ≤ 57 then some (c.toNat - 48) else none

def nat_of_chars_go : List Char → Nat → Option Nat
  | [], acc => some acc
  | c :: cs, acc =>
    match digit_val c with
    | some d => nat_of_chars_go cs (acc * 10 + d)
    | none => none

/-- Python `int(s)` restricted to plain decimal digit strings (the source
only parses the two components of the institution `start_time`, `"HH:MM"`;
signs/whitespace accepted by Python `int` do not occur there). -/
def nat_of_chars : List Char → Option Nat
  | [] => none
  | c :: cs => nat_of_chars_go (c :: cs) 0

/-- `start_hour, start_minute = map(int, start_time.split(':'))` followed by
`start_hour * 60 + start_minute`; `none` when the string does not have the
`HH:MM` shape (Python would raise a `ValueError` there). -/
def parse_time_mins (s : String) : Option Nat :=
  match split_on_str s ":" with
  | [h, m] =>
    match nat_of_chars h.data, nat_of_chars m.data with
    | some hh, some mm => some (hh * 60 + mm)
    | _, _ => none
  | _ => none

/-- Zero-padded two-digit rendering, Python `f"{n:02d}"` for `n ≥ 0`. -/
def pad2 (n : Nat) : String :=
  if n < 10 then "0" ++ toString n else toString n

/-- `_format_time`: minutes to `HH:MM` with 60-minute hours. -/
def format_time (minutes : Nat) : String :=
  pad2 (minutes / 60) ++ ":" ++ pad2 (minutes % 60)

/-- `", ".join(names)`. -/
def join_sep (sep : String) : List String → String
  | [] => ""
  | [x] => x
  | x :: y :: rest => x ++ sep ++ join_sep sep (y :: rest)

/-! ### Data model (`app.models`, restricted to the fields the generator
reads) -/

structure Institution where
  working_days : List String
  lessons_per_day : Nat
  lesson_duration : Nat
  break_durations : List Nat
  start_time : String
  academic_weeks : Nat
deriving DecidableEq, BEq, Repr

structure ClassGroup where
  id : String
  name : String
  students_count : Nat
  /-- `subject_hours`: insertion-ordered `{subject_id: hours_per_year}`. -/
  subject_hours : List (String × Int)
deriving DecidableEq, BEq, Repr

structure Subject where
  id : String
  name : String
  type : String
  teacher_ids : List String
deriving DecidableEq, BEq, Repr

structure Teacher where
  id : String
  first_name : String
  last_name : String
  /-- `available_hours`: insertion-ordered `{day: [lesson_numbers]}`. -/
  available_hours : List (String × List Nat)
  home_classroom : Option String
deriving DecidableEq, BEq, Repr

structure Classroom where
  id : String
  number : String
  type : String
  /-- Comma-separated subject ids, `None`/`""` meaning unspecialized. -/
  specialization : Option String
deriving DecidableEq, BEq, Repr

/-- `app.schemas.ScheduleSlot` as built by the generator (the wall-clock
`id`/`created_at` are modelled as `""`/absent, see the header comment). -/
structure ScheduleSlot where
  id : String
  day : String
  lesson_number : Nat
  class_group_id : String
  subject_id : String
  teacher_id : String
  classroom_id : String
  start_time : String
  end_time : String
deriving DecidableEq, BEq, Repr

structure LessonRequirement where
  id : String
  group_id : String
  group_name : String
  subject_id : String
  subject_name : String
  subject_type : String
  available_teacher_ids : List String
  priority : Int
deriving DecidableEq, BEq, Repr

/-- The state of one `ScheduleGenerator` instance. -/
structure ScheduleGenerator where
  institution : Institution
  class_groups : List ClassGroup
  subjects : List Subject
  teachers : List Teacher
  classrooms : List Classroom
  schedule : List ScheduleSlot
  logs : List String
deriving DecidableEq, Repr

/-- `self.log(message)` (the `logger.info` side effect is external). -/
def log (g : ScheduleGenerator) (m : String) : ScheduleGenerator :=
  { g with logs := g.logs ++ [m] }

/-! ### Classroom helpers -/

/-- Python truthiness of the optional `specialization` string. -/
def spec_truthy : Option String → Bool
  | none => false
  | some s => !s.data.isEmpty

/-- `classroom.specialization.split(', ')` (only ever evaluated by the
source under a truthiness guard). -/
def spec_list (c : Classroom) : List String :=
  match c.specialization with
  | some s => split_on_str s ", "
  | none => []

/-- `classroom.type == 'lab' and classroom.specialization and
subject_id in classroom.specialization.split(', ')` — the specialization
condition used in `_get_specialized_classrooms_for_subject`,
`_calculate_priority` and `_score_slot`. -/
def is_specialized_for (c : Classroom) (sid : String) : Bool :=
  c.type == "lab" && spec_truthy c.specialization && (spec_list c).contains sid

/-- `not c.specialization or c.specialization.strip() == ''` — the
general-lab condition of `_get_suitable_classrooms_for_teacher`. -/
def blank_specialization (c : Classroom) : Bool :=
  match c.specialization with
  | none => true
  | some s => s.data.isEmpty || (trim_chars s.data).isEmpty

/-- `_get_specialized_classrooms_for_subject`. -/
def get_specialized_classrooms_for_subject (g : ScheduleGenerator) (sid : String) :
    List Classroom :=
  g.classrooms.filter (fun c => is_specialized_for c sid)

/-- `day in teacher.available_hours` / `teacher.available_hours[day]`. -/
def lookup_day (ah : List (String × List Nat)) (day : String) : Option (List Nat) :=
  (ah.find? (fun p => p.1 == day)).map (fun p => p.2)

/-- Step 1 of the theory branch of `_get_suitable_classrooms_for_teacher`:
the candidate teacher's own room, when it exists, is truthy, and is a
`teacher_lab`. -/
def own_teacher_lab (g : ScheduleGenerator) (tid : String) : List Classroom :=
  match g.teachers.find? (fun t => t.id == tid) with
  | some teacher =>
    match teacher.home_classroom with
    | some hc =>
      if hc.data.isEmpty then []
      else
        match g.classrooms.find? (fun c => c.id == hc) with
        | some lab => if lab.type == "teacher_lab" then [lab] else []
        | none => []
    | none => []
  | none => []

/-- `_get_suitable_classrooms_for_teacher` (the source binds
`specialized_classrooms` once; it is referenced twice here). -/
def get_suitable_classrooms_for_teacher (g : ScheduleGenerator)
    (subject_type sid tid : String) : List Classroom :=
  if subject_type == "lab" then
    if (get_specialized_classrooms_for_subject g sid).isEmpty then
      g.classrooms.filter (fun c => c.type == "lab" && blank_specialization c)
    else
      get_specialized_classrooms_for_subject g sid
  else
    own_teacher_lab g tid ++ g.classrooms.filter (fun c => c.type == "theory")
        ++ g.classrooms.filter (fun c =>
             c.type == "teacher_lab" &&
               !(g.teachers.any (fun t => t.home_classroom == some c.id)))

/-- `_is_slot_available`. -/
def is_slot_available (g : ScheduleGenerator)
    (group_id teacher_id classroom_id day : String) (lesson_number : Nat) : Bool :=
  -- `has_conflict` inlined into the branch condition
  if g.schedule.any (fun s =>
      (s.class_group_id == group_id || s.teacher_id == teacher_id ||
        s.classroom_id == classroom_id) &&
      s.day == day && s.lesson_number == lesson_number) then false
  else
    match g.classrooms.find? (fun c => c.id == classroom_id) with
    | some classroom =>
      if classroom.type == "teacher_lab" then
        match g.teachers.find? (fun t => t.home_classroom == some classroom.id) with
        | some owner => owner.id == teacher_id
        | none => true
      else true
    | none => true

/-! ### Time computation -/

/-- Total rendering of the parsed institution start time; theorems that
depend on it assume `parse_time_mins` succeeds (Python raises otherwise). -/
def start_minutes (inst : Institution) : Nat :=
  (parse_time_mins inst.start_time).getD 0

/-- `_calculate_lesson_time`. -/
def calculate_lesson_time (inst : Institution) (lesson_number : Nat) :
    String × String :=
  let current := (List.range' 1 (lesson_number - 1)).foldl
    (fun acc i =>
      let acc := acc + inst.lesson_duration
      if i < inst.lessons_per_day ∧ i - 1 < inst.break_durations.length then
        acc + inst.break_durations.getD (i - 1) 0
      else acc)
    (start_minutes inst)
  (format_time current, format_time (current + inst.lesson_duration))

/-! ### Slot search -/

/-- The candidate slot object appended by `_find_available_slots` (id and
timestamp are wall-clock dependent in the source and modelled as `""`). -/
def make_slot (g : ScheduleGenerator) (r : LessonRequirement)
    (day : String) (n : Nat) (tid cid : String) : ScheduleSlot :=
  { id := ""
    day := day
    lesson_number := n
    class_group_id := r.group_id
    subject_id := r.subject_id
    teacher_id := tid
    classroom_id := cid
    start_time := (calculate_lesson_time g.institution n).1
    end_time := (calculate_lesson_time g.institution n).2 }

/-- The inner body of `_find_available_slots` for one
(day, lesson, candidate teacher) triple. -/
def candidate_slots_for (g : ScheduleGenerator) (r : LessonRequirement)
    (day : String) (n : Nat) (tid : String) : List ScheduleSlot :=
  match g.teachers.find? (fun t => t.id == tid) with
  | none => []
  | some teacher =>
    match lookup_day teacher.available_hours day with
    | none => []
    | some lessons =>
      if lessons.contains n then
        (get_suitable_classrooms_for_teacher g r.subject_type r.subject_id tid).filterMap
          (fun c =>
            if is_slot_available g r.group_id tid c.id day n then
              some (make_slot g r day n tid c.id)
            else none)
      else []

/-- `_find_available_slots`: day-major, then lesson number `1..lessons_per_day`,
then the requirement's teacher order, then classroom order. -/
def find_available_slots (g : ScheduleGenerator) (r : LessonRequirement) :
    List ScheduleSlot :=
  g.institution.working_days.flatMap fun day =>
    (List.range' 1 g.institution.lessons_per_day).flatMap fun n =>
      r.available_teacher_ids.flatMap fun tid =>
        candidate_slots_for g r day n tid

/-! ### Scoring and selection

`_score_slot` accumulates `score` sequentially; the accumulation is the sum
of the six independent contributions below. -/

def score_day_term (g : ScheduleGenerator) (slot : ScheduleSlot) : Int :=
  let wd := g.institution.working_days
  let day_index : Nat := if wd.contains slot.day then wd.indexOf slot.day else 0
  ((wd.length : Int) - (day_index : Int)) * 2

def score_lesson_term (g : ScheduleGenerator) (slot : ScheduleSlot) : Int :=
  let middle : Nat := (g.institution.lessons_per_day + 1) / 2
  let lesson_distance : Nat := ((slot.lesson_number : Int) - (middle : Int)).natAbs
  ((g.institution.lessons_per_day : Int) - (lesson_distance : Int)) * 3

def score_group_load_term (g : ScheduleGenerator) (slot : ScheduleSlot) : Int :=
  -(5 * ((g.schedule.filter (fun s =>
      s.class_group_id == slot.class_group_id && s.day == slot.day)).length : Int))

def score_home_bonus (g : ScheduleGenerator) (slot : ScheduleSlot) : Int :=
  match g.teachers.find? (fun t => t.id == slot.teacher_id) with
  | some teacher =>
    if teacher.home_classroom == some slot.classroom_id then 100 else 0
  | none => 0

def score_spec_bonus (g : ScheduleGenerator) (slot : ScheduleSlot)
    (r : LessonRequirement) : Int :=
  match g.classrooms.find? (fun c => c.id == slot.classroom_id) with
  | some classroom => if is_specialized_for classroom r.subject_id then 50 else 0
  | none => 0

def score_consecutive_bonus (g : ScheduleGenerator) (slot : ScheduleSlot)
    (r : LessonRequirement) : Int :=
  if r.subject_type == "lab" &&
      g.schedule.any (fun s =>
        s.class_group_id == slot.class_group_id &&
        s.subject_id == slot.subject_id &&
        s.day == slot.day &&
        ((s.lesson_number : Int) - (slot.lesson_number : Int)).natAbs == 1) then
    15
  else 0

/-- `_score_slot`. -/
def score_slot (g : ScheduleGenerator) (slot : ScheduleSlot)
    (r : LessonRequirement) : Int :=
  score_day_term g slot + score_lesson_term g slot + score_group_load_term g slot +
    score_home_bonus g slot + score_spec_bonus g slot r +
    score_consecutive_bonus g slot r

/-- `_select_best_slot`: the source sorts `(slot, score)` pairs descending
with Python's stable sort and takes the head, i.e. the first slot attaining
the maximal score; the fold below computes exactly that slot. -/
def select_best_slot (g : ScheduleGenerator) (slots : List ScheduleSlot)
    (r : LessonRequirement) : Option ScheduleSlot :=
  match slots with
  | [] => none
  | first :: rest =>
    some (rest.foldl
      (fun best s => if score_slot g s r > score_slot g best r then s else best)
      first)

/-! ### Committing one lesson -/

/-- `_schedule_lesson`. -/
def schedule_lesson (g : ScheduleGenerator) (r : LessonRequirement) :
    Bool × ScheduleGenerator :=
  -- `available_slots` is bound once in the source; it is referenced twice here
  if (find_available_slots g r).isEmpty then
    (false, log g ("⚠️ No available slots for " ++ r.subject_name ++ " - " ++ r.group_name))
  else
    match select_best_slot g (find_available_slots g r) r with
    | some best =>
      let g1 := { g with schedule := g.schedule ++ [best] }
      let room_info :=
        match g.classrooms.find? (fun c => c.id == best.classroom_id) with
        | some classroom =>
          let base := "room " ++ classroom.number
          if classroom.type == "teacher_lab" then
            match g.teachers.find? (fun t => t.home_classroom == some classroom.id) with
            | some owner =>
              base ++ " (" ++ owner.first_name ++ " " ++ owner.last_name ++ "’s lab)"
            | none => base
          else base
        | none => "unknown room"
      let teacher_name :=
        match g.teachers.find? (fun t => t.id == best.teacher_id) with
        | some t => t.first_name ++ " " ++ t.last_name
        | none => "unknown teacher"
      (true, log g1 ("✅ Scheduled " ++ r.subject_name ++ " for " ++ r.group_name ++
        " on " ++ best.day ++ " lesson " ++ toString best.lesson_number ++
        " in " ++ room_info ++ " with " ++ teacher_name))
    | none => (false, g)

/-! ### Requirement derivation -/

/-- `_calculate_priority`. -/
def calculate_priority (g : ScheduleGenerator) (subject : Subject)
    (group : ClassGroup) : Int :=
  let p : Int := 0
  let p := if subject.type == "lab" then p - 10 else p
  let p := if g.classrooms.any (fun c => is_specialized_for c subject.id) then p - 20
           else p
  let p := p + (subject.teacher_ids.length : Int)
  p - ((group.students_count / 10 : Nat) : Int)

/-- Requirements emitted by `_generate_lesson_requirements` for one
`(subject_id, yearly_hours)` entry of one group (the body of the inner
loop).  Python computes `yearly_hours // academic_weeks`; `academic_weeks = 0`
would raise `ZeroDivisionError` there, while `Nat` division returns `0`, so
theorems about this function assume `0 < academic_weeks` (an invariant of
the institution record). -/
def reqs_for_entry (g : ScheduleGenerator) (group : ClassGroup)
    (sid : String) (yearly : Int) : List LessonRequirement :=
  if 0 < yearly then
    match g.subjects.find? (fun s => s.id == sid) with
    | some subject =>
      if subject.teacher_ids.isEmpty then []
      else
        let weekly := max 1 (yearly.toNat / g.institution.academic_weeks)
        (List.range weekly).map (fun i =>
          { id := group.id ++ "-" ++ sid ++ "-" ++ toString i
            group_id := group.id
            group_name := group.name
            subject_id := subject.id
            subject_name := subject.name
            subject_type := subject.type
            available_teacher_ids := subject.teacher_ids
            priority := calculate_priority g subject group })
    | none => []
  else []

/-- `_generate_lesson_requirements`. -/
def generate_lesson_requirements (g : ScheduleGenerator) : List LessonRequirement :=
  g.class_groups.flatMap fun group =>
    if group.subject_hours.isEmpty then []
    else group.subject_hours.flatMap fun p => reqs_for_entry g group p.1 p.2

/-- Stable ascending insertion of one requirement (a later element goes
after the existing elements of equal priority). -/
def insert_by_priority (x : LessonRequirement) :
    List LessonRequirement → List LessonRequirement
  | [] => [x]
  | y :: ys =>
    if y.priority ≤ x.priority then y :: insert_by_priority x ys
    else x :: y :: ys

/-- `_prioritize_requirements`: `sorted(requirements, key=lambda x: x.priority)`
is the stable ascending sort by priority; stable insertion sort computes the
same list. -/
def prioritize_requirements (reqs : List LessonRequirement) :
    List LessonRequirement :=
  reqs.foldl (fun acc r => insert_by_priority r acc) []

/-! ### Validation -/

/-- `_validate_input_data`: `none` models `{'valid': True}` and `some err`
models `{'valid': False, 'error': err}`. -/
def validate_input_data (g : ScheduleGenerator) : Option String :=
  if g.class_groups.isEmpty then some "No class groups configured"
  else if g.subjects.isEmpty then some "No subjects configured"
  else if g.teachers.isEmpty then some "No teachers configured"
  else if g.classrooms.isEmpty then some "No classrooms configured"
  else if (g.class_groups.filter (fun gr => !gr.subject_hours.isEmpty)).isEmpty then
    some "No subjects assigned to any groups"
  else if (g.subjects.filter (fun s => !s.teacher_ids.isEmpty)).isEmpty then
    some "No teachers assigned to any subjects"
  else none

/-! ### Informational logging (`_log_classroom_info`) -/

def log_classroom_info (g : ScheduleGenerator) : ScheduleGenerator :=
  let specialized_labs :=
    g.classrooms.filter (fun c => c.type == "lab" && spec_truthy c.specialization)
  let g1 :=
    if specialized_labs.isEmpty then g
    else
      specialized_labs.foldl (fun acc lab =>
          let subject_ids := if spec_truthy lab.specialization then spec_list lab else []
          let subject_names := subject_ids.map (fun sid =>
            match g.subjects.find? (fun s => s.id == sid) with
            | some s => s.name
            | none => sid)
          log acc ("   📍 Room " ++ lab.number ++ ": " ++ join_sep ", " subject_names))
        (log g "🏫 Specialized laboratories detected:")
  let teacher_labs := g.classrooms.filter (fun c => c.type == "teacher_lab")
  if teacher_labs.isEmpty then g1
  else
    teacher_labs.foldl (fun acc lab =>
        match g.teachers.find? (fun t => t.home_classroom == some lab.id) with
        | some owner =>
          log acc ("   🏠 Room " ++ lab.number ++ ": Owned by " ++
            owner.first_name ++ " " ++ owner.last_name)
        | none =>
          log acc ("   🏠 Room " ++ lab.number ++
            ": No assigned owner (available for any teacher)"))
      (log g1 "👨‍🏫 Teacher labs detected:")

/-! ### Failure diagnostics -/

/-- `_get_suitable_classrooms_for_subject_type` (note: unlike
`_get_suitable_classrooms_for_teacher`, the general-lab fallback here uses
plain truthiness of `specialization`, without `strip()`). -/
def get_suitable_classrooms_for_subject_type (g : ScheduleGenerator)
    (subject_type sid : String) : List Classroom :=
  if subject_type == "lab" then
    if (get_specialized_classrooms_for_subject g sid).isEmpty then
      g.classrooms.filter (fun c => c.type == "lab" && !(spec_truthy c.specialization))
    else get_specialized_classrooms_for_subject g sid
  else
    g.classrooms.filter (fun c => c.type == "theory" || c.type == "teacher_lab")

/-- The four conflict counters of `_analyze_time_slot_conflicts` plus the
slot counter. -/
structure ConflictSummary where
  teacher_conflicts : Nat
  classroom_conflicts : Nat
  group_conflicts : Nat
  teacher_unavailable : Nat
  total_slots_checked : Nat
deriving DecidableEq, Repr

/-- The per-(day, lesson) scan of `_analyze_time_slot_conflicts`, with the
early `return` on a viable (teacher, classroom) pair. -/
def conflict_scan (g : ScheduleGenerator) (r : LessonRequirement)
    (avail : List Teacher) (rooms : List Classroom) :
    List (String × Nat) → ConflictSummary → ScheduleGenerator
  | [], cs =>
    let g := log g "   📊 Conflict analysis results:"
    let g := log g ("      • Total time slots checked: " ++
      toString cs.total_slots_checked)
    let g := log g ("      • Group already scheduled: " ++
      toString cs.group_conflicts ++ " slots")
    let g := log g ("      • Teachers already scheduled: " ++
      toString cs.teacher_conflicts ++ " conflicts")
    let g := log g ("      • Teachers not available: " ++
      toString cs.teacher_unavailable ++ " conflicts")
    let g := log g ("      • Classrooms already scheduled: " ++
      toString cs.classroom_conflicts ++ " conflicts")
    if cs.teacher_unavailable > cs.teacher_conflicts then
      log g "   💡 RECOMMENDATION: Increase teacher availability hours for this subject"
    else if cs.classroom_conflicts > cs.teacher_conflicts then
      log g ("   💡 RECOMMENDATION: Add more " ++ r.subject_type ++
        " classrooms or reduce classroom usage")
    else if cs.group_conflicts > 0 then
      log g "   💡 RECOMMENDATION: The group schedule is too dense, consider reducing total lessons"
    else
      log g "   💡 RECOMMENDATION: Complex scheduling conflict - try adjusting teacher hours or adding resources"
  | (day, n) :: rest, cs =>
    let cs := { cs with total_slots_checked := cs.total_slots_checked + 1 }
    if g.schedule.any (fun s =>
        s.class_group_id == r.group_id && s.day == day && s.lesson_number == n) then
      conflict_scan g r avail rooms rest
        { cs with group_conflicts := cs.group_conflicts + 1 }
    else
      let tstep := avail.foldl
        (fun (acc : List Teacher × Nat × Nat) teacher =>
          match lookup_day teacher.available_hours day with
          | some lessons =>
            if lessons.contains n then
              if g.schedule.any (fun s =>
                  s.teacher_id == teacher.id && s.day == day && s.lesson_number == n) then
                (acc.1, acc.2.1 + 1, acc.2.2)
              else
                (acc.1 ++ [teacher], acc.2.1, acc.2.2)
            else (acc.1, acc.2.1, acc.2.2 + 1)
          | none => (acc.1, acc.2.1, acc.2.2 + 1))
        ([], 0, 0)
      let avail_for_slot := tstep.1
      let cs := { cs with
        teacher_conflicts := cs.teacher_conflicts + tstep.2.1
        teacher_unavailable := cs.teacher_unavailable + tstep.2.2 }
      if avail_for_slot.isEmpty then
        conflict_scan g r avail rooms rest cs
      else
        let rstep := rooms.foldl
          (fun (acc : List Classroom × Nat) room =>
            if g.schedule.any (fun s =>
                s.classroom_id == room.id && s.day == day && s.lesson_number == n) then
              (acc.1, acc.2 + 1)
            else
              if room.type == "teacher_lab" then
                match g.teachers.find? (fun t => t.home_classroom == some room.id) with
                | some owner =>
                  if avail_for_slot.contains owner then (acc.1 ++ [room], acc.2)
                  else (acc.1, acc.2)
                | none => (acc.1 ++ [room], acc.2)
              else (acc.1 ++ [room], acc.2))
          ([], 0)
        let cs := { cs with
          classroom_conflicts := cs.classroom_conflicts + rstep.2 }
        if rstep.1.isEmpty then
          conflict_scan g r avail rooms rest cs
        else
          log g ("   ✅ Found potential slot: " ++ day ++ " lesson " ++ toString n ++
            " with " ++ toString avail_for_slot.length ++ " teachers and " ++
            toString rstep.1.length ++ " classrooms")

/-- The (day, lesson) enumeration of `_analyze_time_slot_conflicts`. -/
def conflict_pairs (g : ScheduleGenerator) : List (String × Nat) :=
  g.institution.working_days.flatMap fun d =>
    (List.range' 1 g.institution.lessons_per_day).map fun n => (d, n)

/-- `_analyze_time_slot_conflicts`. -/
def analyze_time_slot_conflicts (g : ScheduleGenerator) (r : LessonRequirement)
    (avail : List Teacher) (rooms : List Classroom) : ScheduleGenerator :=
  let g := log g ("   🔍 Analyzing time conflicts for " ++ toString avail.length ++
    " teachers and " ++ toString rooms.length ++ " classrooms")
  conflict_scan g r avail rooms (conflict_pairs g) ⟨0, 0, 0, 0, 0⟩

/-- `_analyze_scheduling_failure`. -/
def analyze_scheduling_failure (g : ScheduleGenerator) (r : LessonRequirement) :
    ScheduleGenerator :=
  let g := log g ("❌ Failed to schedule: " ++ r.subject_name ++ " for " ++ r.group_name)
  if r.available_teacher_ids.isEmpty then
    log g ("   🚫 CRITICAL: No teachers assigned to subject \"" ++ r.subject_name ++ "\"")
  else
    let pass2 := r.available_teacher_ids.foldl
      (fun (acc : List Teacher × ScheduleGenerator) tid =>
        match g.teachers.find? (fun t => t.id == tid) with
        | some t => (acc.1 ++ [t], acc.2)
        | none =>
          (acc.1, log acc.2 ("   ⚠️ WARNING: Teacher ID " ++ tid ++
            " assigned to subject but not found in system")))
      ([], g)
    let existing := pass2.1
    let g := pass2.2
    if existing.isEmpty then
      log g "   🚫 CRITICAL: None of the assigned teachers exist in the system"
    else
      let pass3 := existing.foldl
        (fun (acc : List Teacher × ScheduleGenerator) t =>
          let total := (t.available_hours.map (fun p => p.2.length)).foldl (· + ·) 0
          if 0 < total then (acc.1 ++ [t], acc.2)
          else
            (acc.1, log acc.2 ("   ⚠️ Teacher " ++ t.first_name ++ " " ++ t.last_name ++
              " has no available hours set")))
        ([], g)
      let with_avail := pass3.1
      let g := pass3.2
      if with_avail.isEmpty then
        log g "   🚫 CRITICAL: None of the assigned teachers have any available hours"
      else
        let suitable := get_suitable_classrooms_for_subject_type g r.subject_type r.subject_id
        if suitable.isEmpty then
          if r.subject_type == "lab" then
            let specialized := get_specialized_classrooms_for_subject g r.subject_id
            if !specialized.isEmpty then
              let g := log g ("   🚫 CRITICAL: Subject requires specialized lab but all " ++
                toString specialized.length ++ " specialized labs are unavailable")
              specialized.foldl (fun acc lab =>
                  log acc ("      📍 Lab " ++ lab.number ++ ": " ++
                    toString (g.schedule.filter (fun s => s.classroom_id == lab.id)).length ++
                    " slots occupied")) g
            else
              let general := g.classrooms.filter (fun c =>
                c.type == "lab" && !(spec_truthy c.specialization))
              if general.isEmpty then
                log g "   🚫 CRITICAL: No laboratory classrooms available in the system"
              else
                log g ("   🚫 CRITICAL: All " ++ toString general.length ++
                  " general laboratory classrooms are unavailable")
          else
            let theory := g.classrooms.filter (fun c =>
              c.type == "theory" || c.type == "teacher_lab")
            if theory.isEmpty then
              log g "   🚫 CRITICAL: No theory classrooms available in the system"
            else
              log g ("   🚫 CRITICAL: All " ++ toString theory.length ++
                " theory classrooms are unavailable")
        else
          analyze_time_slot_conflicts g r with_avail suitable

/-! ### Distribution analysis (`_optimize_schedule_distribution`) -/

def nat_list_max : List Nat → Nat
  | [] => 0
  | x :: xs => xs.foldl Nat.max x

def nat_list_min : List Nat → Nat
  | [] => 0
  | x :: xs => xs.foldl Nat.min x

/-- Per-day lesson counts of one group (`daily_lessons.values()`). -/
def group_day_counts (g : ScheduleGenerator) (group : ClassGroup) : List Nat :=
  g.institution.working_days.map (fun d =>
    (g.schedule.filter (fun s => s.class_group_id == group.id && s.day == d)).length)

/-- Committed slots held in one room. -/
def lessons_in_room (g : ScheduleGenerator) (room : Classroom) : List ScheduleSlot :=
  g.schedule.filter (fun s => s.classroom_id == room.id)

/-- One iteration of the per-group imbalance check of
`_optimize_schedule_distribution`. -/
def distribution_warning_step (g acc : ScheduleGenerator) (group : ClassGroup) :
    ScheduleGenerator :=
  if 2 < nat_list_max (group_day_counts g group) - nat_list_min (group_day_counts g group) then
    log acc ("⚠️ Uneven distribution for group " ++ group.name ++ ": " ++
      toString (nat_list_min (group_day_counts g group)) ++ "-" ++
      toString (nat_list_max (group_day_counts g group)) ++ " lessons per day")
  else acc

/-- One iteration of the specialized-lab usage report.
`unauthorized_subjects` is built from the *set* of scheduled subject ids;
only its (order-independent) emptiness is observed. -/
def spec_lab_report_step (g acc : ScheduleGenerator) (lab : Classroom) :
    ScheduleGenerator :=
  if (lessons_in_room g lab).any (fun s =>
      !((if spec_truthy lab.specialization then spec_list lab else []).contains
          s.subject_id)) then
    log (log acc ("🏫 Specialized Lab " ++ lab.number ++ ": " ++
        toString (lessons_in_room g lab).length ++ " lessons"))
      ("⚠️ Room " ++ lab.number ++ ": Unauthorized subjects detected!")
  else
    log (log acc ("🏫 Specialized Lab " ++ lab.number ++ ": " ++
        toString (lessons_in_room g lab).length ++ " lessons"))
      ("✅ Room " ++ lab.number ++ ": Only authorized subjects scheduled")

/-- One iteration of the teacher-lab usage report. -/
def teacher_lab_report_step (g acc : ScheduleGenerator) (lab : Classroom) :
    ScheduleGenerator :=
  match g.teachers.find? (fun t => t.home_classroom == some lab.id) with
  | some owner =>
    if !((lessons_in_room g lab).filter (fun s => s.teacher_id != owner.id)).isEmpty then
      log (log (log acc ("👨‍🏫 Teacher Lab " ++ lab.number ++ " (" ++
          owner.first_name ++ " " ++ owner.last_name ++ "): " ++
          toString (lessons_in_room g lab).length ++ " total lessons"))
        ("   📚 Owner’s lessons: " ++
          toString ((lessons_in_room g lab).filter
            (fun s => s.teacher_id == owner.id)).length))
        ("   ⚠️ Other teachers’ lessons: " ++
          toString ((lessons_in_room g lab).filter
            (fun s => s.teacher_id != owner.id)).length ++ " (This should not happen!)")
    else
      log (log (log acc ("👨‍🏫 Teacher Lab " ++ lab.number ++ " (" ++
          owner.first_name ++ " " ++ owner.last_name ++ "): " ++
          toString (lessons_in_room g lab).length ++ " total lessons"))
        ("   📚 Owner’s lessons: " ++
          toString ((lessons_in_room g lab).filter
            (fun s => s.teacher_id == owner.id)).length))
        "   ✅ Only owner uses this lab"
  | none =>
    log acc ("🏫 Unassigned Teacher Lab " ++ lab.number ++ ": " ++
      toString (lessons_in_room g lab).length ++ " lessons (available to all)")

def optimize_schedule_distribution (g : ScheduleGenerator) : ScheduleGenerator :=
  log
    ((g.classrooms.filter (fun c => c.type == "teacher_lab")).foldl
      (teacher_lab_report_step g)
      ((g.classrooms.filter (fun c => c.type == "lab" && spec_truthy c.specialization)).foldl
        (spec_lab_report_step g)
        (g.class_groups.foldl (distribution_warning_step g)
          (log g "🔧 Optimizing schedule distribution..."))))
    "✅ Distribution optimization complete"

/-! ### The main loop and entry point -/

/-- The body of the `for requirement in sorted_requirements` loop of
`generate_schedule`, threading `(state, scheduled_count, failed_count)`. -/
def run_scheduling_loop (g : ScheduleGenerator)
    (reqs : List LessonRequirement) : ScheduleGenerator × Nat × Nat :=
  reqs.foldl
    (fun acc r =>
      let res := schedule_lesson acc.1 r
      if res.1 then (res.2, acc.2.1 + 1, acc.2.2)
      else (analyze_scheduling_failure res.2 r, acc.2.1, acc.2.2 + 1))
    (g, 0, 0)

/-- The result dictionary returned by `generate_schedule`. -/
structure GenerationResult where
  success : Bool
  schedule : List ScheduleSlot
  error : Option String
  logs : List String
deriving DecidableEq, Repr

/-- `self.schedule = []; self.logs = []` — note that the source performs this
reset *after* logging the start banner, which therefore never survives into
the returned `logs`. -/
def reset_run_state (g : ScheduleGenerator) : ScheduleGenerator :=
  { g with schedule := [], logs := [] }

/-- Everything `generate_schedule` does after a successful validation, up to
and including the scheduling loop. -/
def scheduling_pass (g1 : ScheduleGenerator) : ScheduleGenerator × Nat × Nat :=
  let g2 := log g1 "✅ Input validation passed"
  let g3 := log_classroom_info g2
  let reqs := generate_lesson_requirements g3
  let g4 := log g3 ("📋 Generated " ++ toString reqs.length ++ " lesson requirements")
  let sorted_reqs := prioritize_requirements reqs
  let g5 := log g4 "🔄 Prioritized lesson requirements"
  run_scheduling_loop g5 sorted_reqs

/-- The tail of `generate_schedule` after the scheduling loop: the
completion log line, the zero-scheduled failure return, or the
distribution pass plus success return. -/
def finalize_run (res : ScheduleGenerator × Nat × Nat) : GenerationResult :=
  if res.2.1 == 0 then
    { success := false
      schedule := []
      error := some "No lessons could be scheduled. Check teacher availability and classroom assignments."
      logs := (log res.1 ("✅ Scheduling complete: " ++ toString res.2.1 ++
        " scheduled, " ++ toString res.2.2 ++ " failed")).logs }
  else
    { success := true
      schedule := (optimize_schedule_distribution
        (log res.1 ("✅ Scheduling complete: " ++ toString res.2.1 ++
          " scheduled, " ++ toString res.2.2 ++ " failed"))).schedule
      error := none
      logs := (optimize_schedule_distribution
        (log res.1 ("✅ Scheduling complete: " ++ toString res.2.1 ++
          " scheduled, " ++ toString res.2.2 ++ " failed"))).logs }

/-- `generate_schedule`.  The embedding is total, so the source's
`except Exception` arm has no image here; theorems that depend on
exception-freedom assume `0 < academic_weeks` and a parseable `start_time`,
the only operations in this code path that can raise on otherwise
well-typed input. -/
def generate_schedule (g : ScheduleGenerator) : GenerationResult :=
  match validate_input_data
      (reset_run_state (log g "🚀 Starting smart schedule generation...")) with
  | some err =>
    { success := false, schedule := [], error := some err
      logs := (reset_run_state (log g "🚀 Starting smart schedule generation...")).logs }
  | none =>
    finalize_run (scheduling_pass
      (reset_run_state (log g "🚀 Starting smart schedule generation...")))

/-- The number of requirements committed during the run (the loop's
`scheduled_count`). -/
def scheduled_count (g : ScheduleGenerator) : Nat :=
  (scheduling_pass (reset_run_state g)).2.1

/-! ## Invariants of the committed schedule -/

/-- No double-booking: distinct committed slots sharing a (day, lesson
number) cell differ in group, teacher and classroom. -/
def no_double_booking (slots : List ScheduleSlot) : Prop :=
  slots.Pairwise (fun a b =>
    a.day = b.day → a.lesson_number = b.lesson_number →
      a.class_group_id ≠ b.class_group_id ∧ a.teacher_id ≠ b.teacher_id ∧
        a.classroom_id ≠ b.classroom_id)

/-- Teacher-lab exclusivity: a committed slot held in a `teacher_lab`-typed
room that has an owner (first teacher whose `home_classroom` is that room,
the lookup the source performs) is taught by that owner. -/
def teacher_lab_exclusive (g : ScheduleGenerator) : Prop :=
  ∀ s ∈ g.schedule, ∀ c, g.classrooms.find? (fun x => x.id == s.classroom_id) = some c →
    c.type = "teacher_lab" →
    ∀ o, g.teachers.find? (fun t => t.home_classroom == some c.id) = some o →
      s.teacher_id = o.id

/-- Slot-domain invariant: every committed slot sits on a configured working
day with a lesson number in `1..lessons_per_day`. -/
def slots_in_domain (g : ScheduleGenerator) : Prop :=
  ∀ s ∈ g.schedule, s.day ∈ g.institution.working_days ∧
    1 ≤ s.lesson_number ∧ s.lesson_number ≤ g.institution.lessons_per_day

/-! ## Helper lemmas -/

theorem foldl_best_mem (g : ScheduleGenerator) (r : LessonRequirement) :
    ∀ (l : List ScheduleSlot) (a : ScheduleSlot),
      (l.foldl (fun best s => if score_slot g s r > score_slot g best r then s else best) a)
        ∈ a :: l := by
  intro l
  induction l with
  | nil => intro a; simp
  | cons x xs ih =>
    intro a
    simp only [List.foldl_cons]
    by_cases hx : score_slot g x r > score_slot g a r
    · rw [if_pos hx]
      have := ih x
      simp only [List.mem_cons] at this ⊢
      tauto
    · rw [if_neg hx]
      have := ih a
      simp only [List.mem_cons] at this ⊢
      tauto

theorem select_best_slot_mem {g : ScheduleGenerator} {slots : List ScheduleSlot}
    {r : LessonRequirement} {b : ScheduleSlot}
    (h : select_best_slot g slots r = some b) : b ∈ slots := by
  cases slots with
  | nil => simp [select_best_slot] at h
  | cons first rest =>
    simp only [select_best_slot, Option.some.injEq] at h
    have := foldl_best_mem g r rest first
    rw [h] at this
    exact this

theorem mem_range'_bounds {n len : Nat} (h : n ∈ List.range' 1 len) :
    1 ≤ n ∧ n ≤ len := by
  rw [List.mem_range'_1] at h
  omega

/-- Characterization of the candidate slots produced by
`_find_available_slots`. -/
theorem find_slots_spec (g : ScheduleGenerator) (r : LessonRequirement)
    (s : ScheduleSlot) (h : s ∈ find_available_slots g r) :
    s.class_group_id = r.group_id ∧
    s.subject_id = r.subject_id ∧
    s.day ∈ g.institution.working_days ∧
    (1 ≤ s.lesson_number ∧ s.lesson_number ≤ g.institution.lessons_per_day) ∧
    is_slot_available g r.group_id s.teacher_id s.classroom_id s.day s.lesson_number
      = true ∧
    ∃ c ∈ get_suitable_classrooms_for_teacher g r.subject_type r.subject_id s.teacher_id,
      s.classroom_id = c.id := by
  simp only [find_available_slots, List.mem_flatMap] at h
  obtain ⟨day, hday, n, hn, tid, htid, h⟩ := h
  have hbounds := mem_range'_bounds hn
  unfold candidate_slots_for at h
  split at h
  · simp at h
  · split at h
    · simp at h
    · split at h
      · rw [List.mem_filterMap] at h
        obtain ⟨c, hc, hfc⟩ := h
        split at hfc
        · next hav =>
          have hs : make_slot g r day n tid c.id = s := Option.some.inj hfc
          subst hs
          exact ⟨rfl, rfl, hday, hbounds, hav, c, hc, rfl⟩
        · exact absurd hfc (by simp)
      · simp at h

/-- A slot that passes `_is_slot_available` conflicts with no committed slot
on its (day, lesson) cell. -/
theorem is_slot_available_no_conflict {g : ScheduleGenerator}
    {gid tid cid day : String} {n : Nat}
    (h : is_slot_available g gid tid cid day n = true) :
    ∀ a ∈ g.schedule, a.day = day → a.lesson_number = n →
      a.class_group_id ≠ gid ∧ a.teacher_id ≠ tid ∧ a.classroom_id ≠ cid := by
  unfold is_slot_available at h
  by_cases hc : g.schedule.any (fun s =>
      (s.class_group_id == gid || s.teacher_id == tid || s.classroom_id == cid) &&
      s.day == day && s.lesson_number == n) = true
  · rw [if_pos hc] at h; exact absurd h (by simp)
  · intro a ha hd hn
    exact ⟨fun hg => hc (List.any_eq_true.mpr ⟨a, ha, by simp [hg, hd, hn]⟩),
           fun ht => hc (List.any_eq_true.mpr ⟨a, ha, by simp [ht, hd, hn]⟩),
           fun hcl => hc (List.any_eq_true.mpr ⟨a, ha, by simp [hcl, hd, hn]⟩)⟩

/-- A slot that passes `_is_slot_available` respects teacher-lab ownership. -/
theorem is_slot_available_ownership {g : ScheduleGenerator}
    {gid tid cid day : String} {n : Nat}
    (h : is_slot_available g gid tid cid day n = true) :
    ∀ c, g.classrooms.find? (fun x => x.id == cid) = some c →
      c.type = "teacher_lab" →
      ∀ o, g.teachers.find? (fun t => t.home_classroom == some c.id) = some o →
        o.id = tid := by
  unfold is_slot_available at h
  intro c hc hty o ho
  split at h
  · exact absurd h (by simp)
  · split at h
    · next classroom hfound =>
      rw [hc] at hfound
      have hcc : classroom = c := (Option.some.inj hfound).symm
      subst hcc
      split at h
      · split at h
        · next owner hown =>
          rw [ho] at hown
          have hoo : owner = o := (Option.some.inj hown).symm
          subst hoo
          simpa using h
        · next hown =>
          rw [ho] at hown
          exact absurd hown (by simp)
      · next hnty =>
        exact absurd (by simp [hty]) hnty
    · next hfound =>
      rw [hc] at hfound
      exact absurd hfound (by simp)

theorem schedule_lesson_classrooms (g : ScheduleGenerator) (r : LessonRequirement) :
    ((schedule_lesson g r).2).classrooms = g.classrooms := by
  unfold schedule_lesson
  split
  · rfl
  · split <;> rfl

theorem schedule_lesson_teachers (g : ScheduleGenerator) (r : LessonRequirement) :
    ((schedule_lesson g r).2).teachers = g.teachers := by
  unfold schedule_lesson
  split
  · rfl
  · split <;> rfl

theorem schedule_lesson_institution (g : ScheduleGenerator) (r : LessonRequirement) :
    ((schedule_lesson g r).2).institution = g.institution := by
  unfold schedule_lesson
  split
  · rfl
  · split <;> rfl

/-- The schedule after `_schedule_lesson`: unchanged on failure, the chosen
candidate appended on success. -/
theorem schedule_lesson_schedule (g : ScheduleGenerator) (r : LessonRequirement) :
    ((schedule_lesson g r).2).schedule = g.schedule ∨
    ∃ best ∈ find_available_slots g r,
      ((schedule_lesson g r).2).schedule = g.schedule ++ [best] := by
  unfold schedule_lesson
  by_cases he : (find_available_slots g r).isEmpty
  · rw [if_pos he]; exact Or.inl rfl
  · rw [if_neg he]
    cases hsel : select_best_slot g (find_available_slots g r) r with
    | none => exact Or.inl rfl
    | some best =>
      exact Or.inr ⟨best, select_best_slot_mem hsel, rfl⟩

/-! ## C1 — no double-booking -/

/-- Claim C1: every commit performed by the scheduling loop preserves the
no-double-booking invariant — if the committed schedule has no two slots
sharing (day, lesson_number) together with a group, teacher or classroom,
then the schedule after `_schedule_lesson` (which appends the selected
candidate, vetted by `_is_slot_available`) still has none. -/
theorem no_double_booking_preserved (g : ScheduleGenerator) (r : LessonRequirement)
    (h : no_double_booking g.schedule) :
    no_double_booking ((schedule_lesson g r).2).schedule := by
  rcases schedule_lesson_schedule g r with heq | ⟨best, hmem, heq⟩
  · rw [heq]; exact h
  · rw [heq]
    obtain ⟨hgid, -, -, -, hav, -⟩ := find_slots_spec g r best hmem
    rw [no_double_booking, List.pairwise_append]
    refine ⟨h, List.pairwise_singleton _ _, ?_⟩
    intro a ha b hb
    have hb' : b = best := by simpa using hb
    subst hb'
    intro hd hn
    have := is_slot_available_no_conflict hav a ha hd hn
    rw [hgid]
    exact this

/-- Witness for C1 at a concrete generator state (empty committed schedule,
one teacher, a teacher lab and a theory room; the call commits a slot). -/
def exI : Institution :=
  { working_days := ["Monday"]
    lessons_per_day := 4
    lesson_duration := 70
    break_durations := [10, 20, 10]
    start_time := "09:00"
    academic_weeks := 40 }

def exT : Teacher :=
  { id := "t1", first_name := "Ana", last_name := "K"
    available_hours := [("Monday", [1, 2])], home_classroom := some "c1" }

def exC1 : Classroom :=
  { id := "c1", number := "101", type := "teacher_lab", specialization := none }

def exC2 : Classroom :=
  { id := "c2", number := "102", type := "theory", specialization := none }

def exS : Subject :=
  { id := "s1", name := "Math", type := "theory", teacher_ids := ["t1"] }

def exG : ClassGroup :=
  { id := "g1", name := "Group A", students_count := 25
    subject_hours := [("s1", 40)] }

def exGen : ScheduleGenerator :=
  { institution := exI, class_groups := [exG], subjects := [exS]
    teachers := [exT], classrooms := [exC1, exC2], schedule := [], logs := [] }

def exReq : LessonRequirement :=
  { id := "g1-s1-0", group_id := "g1", group_name := "Group A"
    subject_id := "s1", subject_name := "Math", subject_type := "theory"
    available_teacher_ids := ["t1"], priority := 0 }

theorem no_double_booking_preserved_witness :
    no_double_booking ((schedule_lesson exGen exReq).2).schedule :=
  no_double_booking_preserved exGen exReq List.Pairwise.nil

/-! ## C2 — teacher-lab exclusivity -/

/-- Claim C2: every commit preserves teacher-lab exclusivity — if every
committed slot held in an owned `teacher_lab` room is taught by its owner,
the same holds after `_schedule_lesson`, because `_is_slot_available`
rejects any candidate that puts a non-owner into an owned room. -/
theorem teacher_lab_exclusive_preserved (g : ScheduleGenerator)
    (r : LessonRequirement) (h : teacher_lab_exclusive g) :
    teacher_lab_exclusive ((schedule_lesson g r).2) := by
  have hcls := schedule_lesson_classrooms g r
  have hts := schedule_lesson_teachers g r
  intro s hs c hc hty o ho
  rw [hcls] at hc
  rw [hts] at ho
  rcases schedule_lesson_schedule g r with heq | ⟨best, hmem, heq⟩
  · rw [heq] at hs
    exact h s hs c hc hty o ho
  · rw [heq, List.mem_append] at hs
    rcases hs with hs | hs
    · exact h s hs c hc hty o ho
    · have hs' : s = best := by simpa using hs
      subst hs'
      obtain ⟨-, -, -, -, hav, -⟩ := find_slots_spec g r s hmem
      exact (is_slot_available_ownership hav c hc hty o ho).symm

theorem teacher_lab_exclusive_preserved_witness :
    teacher_lab_exclusive ((schedule_lesson exGen exReq).2) :=
  teacher_lab_exclusive_preserved exGen exReq (fun s hs => by simp [exGen] at hs)

/-! ## C10 — implicit slot-domain invariant -/

/-- Claim C10: every commit preserves the slot-domain invariant — any slot
appended to the committed schedule has its day among the institution's
working days and its lesson number in `1..lessons_per_day`, because
`_find_available_slots` enumerates only that domain. -/
theorem slots_in_domain_preserved (g : ScheduleGenerator) (r : LessonRequirement)
    (h : slots_in_domain g) : slots_in_domain ((schedule_lesson g r).2) := by
  have hinst := schedule_lesson_institution g r
  intro s hs
  rw [hinst]
  rcases schedule_lesson_schedule g r with heq | ⟨best, hmem, heq⟩
  · rw [heq] at hs
    exact h s hs
  · rw [heq, List.mem_append] at hs
    rcases hs with hs | hs
    · exact h s hs
    · have hs' : s = best := by simpa using hs
      subst hs'
      obtain ⟨-, -, hday, hbounds, -, -⟩ := find_slots_spec g r s hmem
      exact ⟨hday, hbounds⟩

theorem slots_in_domain_preserved_witness :
    slots_in_domain ((schedule_lesson exGen exReq).2) :=
  slots_in_domain_preserved exGen exReq (fun s hs => by simp [exGen] at hs)

/-! ## C3 — specialized-lab exclusivity -/

/-- Claim C3: for a lab subject, if some lab's specialization set contains
the subject id then the candidate classroom set of the slot finder is
exactly those specialized labs (in particular it never contains an
unspecialized lab); otherwise it is exactly the labs with empty (absent,
empty or whitespace-only) specialization. -/
theorem specialized_lab_exclusivity (g : ScheduleGenerator) (sid tid : String) :
    (get_specialized_classrooms_for_subject g sid ≠ [] →
      get_suitable_classrooms_for_teacher g "lab" sid tid
          = get_specialized_classrooms_for_subject g sid ∧
      ∀ c ∈ get_suitable_classrooms_for_teacher g "lab" sid tid,
        is_specialized_for c sid = true) ∧
    (get_specialized_classrooms_for_subject g sid = [] →
      ∀ c, c ∈ get_suitable_classrooms_for_teacher g "lab" sid tid ↔
        c ∈ g.classrooms ∧ c.type = "lab" ∧ blank_specialization c = true) := by
  constructor
  · intro h
    have hne : (get_specialized_classrooms_for_subject g sid).isEmpty = false := by
      cases hh : get_specialized_classrooms_for_subject g sid with
      | nil => exact absurd hh h
      | cons a l => rfl
    have heq : get_suitable_classrooms_for_teacher g "lab" sid tid
        = get_specialized_classrooms_for_subject g sid := by
      unfold get_suitable_classrooms_for_teacher
      rw [hne]
      simp
    refine ⟨heq, ?_⟩
    intro c hc
    rw [heq] at hc
    exact (List.mem_filter.mp hc).2
  · intro h c
    have hemp : (get_specialized_classrooms_for_subject g sid).isEmpty = true := by
      rw [h]; rfl
    have heq : get_suitable_classrooms_for_teacher g "lab" sid tid
        = g.classrooms.filter (fun x => x.type == "lab" && blank_specialization x) := by
      unfold get_suitable_classrooms_for_teacher
      rw [hemp]
      simp
    rw [heq, List.mem_filter]
    constructor
    · rintro ⟨h1, h2⟩
      rw [Bool.and_eq_true, beq_iff_eq] at h2
      exact ⟨h1, h2.1, h2.2⟩
    · rintro ⟨h1, h2, h3⟩
      refine ⟨h1, ?_⟩
      rw [Bool.and_eq_true, beq_iff_eq]
      exact ⟨h2, h3⟩

def exLab1 : Classroom :=
  { id := "L1", number := "201", type := "lab", specialization := some "s9" }

def exLab2 : Classroom :=
  { id := "L2", number := "202", type := "lab", specialization := none }

def exGenLabs : ScheduleGenerator :=
  { institution := exI, class_groups := [exG], subjects := [exS]
    teachers := [exT], classrooms := [exLab1, exLab2], schedule := [], logs := [] }

theorem specialized_lab_exclusivity_witness :
    get_specialized_classrooms_for_subject exGenLabs "s9" ≠ [] ∧
    get_suitable_classrooms_for_teacher exGenLabs "lab" "s9" "t1"
        = get_specialized_classrooms_for_subject exGenLabs "s9" ∧
    get_specialized_classrooms_for_subject exGenLabs "zz" = [] ∧
    exLab2 ∈ get_suitable_classrooms_for_teacher exGenLabs "lab" "zz" "t1" :=
  ⟨by decide,
   ((specialized_lab_exclusivity exGenLabs "s9" "t1").1 (by decide)).1,
   by decide,
   ((specialized_lab_exclusivity exGenLabs "zz" "t1").2 (by decide) exLab2).mpr
     ⟨List.Mem.tail exLab1 (List.Mem.head _), by decide, by decide⟩⟩

/-! ## C5 — requirement derivation -/

/-- Claim C5: one `(subject_id, yearly_hours)` entry of a group emits
exactly `max 1 (yearly_hours / academic_weeks)` requirements when
`yearly_hours > 0`, the subject id resolves and the subject has teachers,
and zero requirements otherwise. -/
theorem requirement_count (g : ScheduleGenerator) (group : ClassGroup)
    (sid : String) (yearly : Int) :
    (∀ subject, 0 < yearly →
      g.subjects.find? (fun s => s.id == sid) = some subject →
      subject.teacher_ids ≠ [] →
      (reqs_for_entry g group sid yearly).length
        = max 1 (yearly.toNat / g.institution.academic_weeks)) ∧
    ((yearly ≤ 0 ∨ g.subjects.find? (fun s => s.id == sid) = none ∨
        ∃ subject, g.subjects.find? (fun s => s.id == sid) = some subject ∧
          subject.teacher_ids = []) →
      reqs_for_entry g group sid yearly = []) := by
  constructor
  · intro subject hy hfind hne
    have hemp : subject.teacher_ids.isEmpty = false := by
      cases hh : subject.teacher_ids with
      | nil => exact absurd hh hne
      | cons a l => rfl
    unfold reqs_for_entry
    rw [if_pos hy]
    split
    · next s hfound =>
      rw [hfind] at hfound
      have hs : s = subject := (Option.some.inj hfound).symm
      subst hs
      rw [hemp]
      simp
    · next hfound =>
      rw [hfind] at hfound
      exact absurd hfound (by simp)
  · rintro (hy | hnone | ⟨subject, hfind, hemp⟩)
    · unfold reqs_for_entry
      rw [if_neg (by omega)]
    · unfold reqs_for_entry
      by_cases hy : 0 < yearly
      · rw [if_pos hy]
        split
        · next s hfound =>
          rw [hnone] at hfound
          exact absurd hfound (by simp)
        · rfl
      · rw [if_neg hy]
    · unfold reqs_for_entry
      by_cases hy : 0 < yearly
      · rw [if_pos hy]
        split
        · next s hfound =>
          rw [hfind] at hfound
          have hs : s = subject := (Option.some.inj hfound).symm
          subst hs
          have hb : s.teacher_ids.isEmpty = true := by rw [hemp]; rfl
          rw [hb]
          simp
        · rfl
      · rw [if_neg hy]

theorem requirement_count_witness :
    (reqs_for_entry exGen exG "s1" 280).length = max 1 ((280 : Int).toNat / 40) ∧
    (reqs_for_entry exGen exG "s1" 280).length = 7 ∧
    (reqs_for_entry exGen exG "s1" 10).length = max 1 ((10 : Int).toNat / 40) ∧
    (reqs_for_entry exGen exG "s1" 10).length = 1 ∧
    reqs_for_entry exGen exG "s1" 0 = [] :=
  ⟨(requirement_count exGen exG "s1" 280).1 exS (by decide) (by decide) (by decide),
   by decide,
   (requirement_count exGen exG "s1" 10).1 exS (by decide) (by decide) (by decide),
   by decide,
   (requirement_count exGen exG "s1" 0).2 (Or.inl (by decide))⟩

/-! ## C6 — lesson time computation -/

/-- The accumulated offset described by the claim: for lesson `N`, sum for
`i = 1..N-1` of the lesson duration plus `break_durations[i-1]` whenever `i`
is a valid break index (`i ≤ lessons_per_day` and `i-1` within bounds).
This is the claim-side recomputation to be compared with
`calculate_lesson_time`. -/
def claimed_lesson_offset (inst : Institution) (n : Nat) : Nat :=
  ((List.range' 1 (n - 1)).map (fun i =>
    inst.lesson_duration +
      (if i ≤ inst.lessons_per_day ∧ i - 1 < inst.break_durations.length then
        inst.break_durations.getD (i - 1) 0
      else 0))).sum

/-- Claim C6: for every lesson number `N` in `1..lessons_per_day`, the slot
start time is the institution start time in minutes plus the accumulated
lesson durations and valid break durations for `i = 1..N-1`, the end time
adds one more lesson duration, and both are rendered as zero-padded `HH:MM`
(the code's break guard `i < lessons_per_day` coincides with the claim's
`i ≤ lessons_per_day` on this domain). -/
theorem lesson_time_formula (inst : Institution) (n : Nat)
    (h1 : 1 ≤ n) (h2 : n ≤ inst.lessons_per_day) :
    calculate_lesson_time inst n =
      (format_time (start_minutes inst + claimed_lesson_offset inst n),
       format_time (start_minutes inst + claimed_lesson_offset inst n +
         inst.lesson_duration)) := by
  unfold calculate_lesson_time claimed_lesson_offset
  have key : ∀ (l : List Nat) (m : Nat), (∀ i ∈ l, i < inst.lessons_per_day) →
      l.foldl (fun acc i =>
        let acc := acc + inst.lesson_duration
        if i < inst.lessons_per_day ∧ i - 1 < inst.break_durations.length then
          acc + inst.break_durations.getD (i - 1) 0
        else acc) m
      = m + (l.map (fun i => inst.lesson_duration +
          (if i ≤ inst.lessons_per_day ∧ i - 1 < inst.break_durations.length then
            inst.break_durations.getD (i - 1) 0
          else 0))).sum := by
    intro l
    induction l with
    | nil => intro m _; simp
    | cons i rest ih =>
      intro m hmem
      have hi : i < inst.lessons_per_day := hmem i (by simp)
      simp only [List.foldl_cons, List.map_cons, List.sum_cons]
      rw [ih _ (fun j hj => hmem j (by simp [hj]))]
      by_cases hb : i - 1 < inst.break_durations.length
      · rw [if_pos ⟨hi, hb⟩, if_pos ⟨Nat.le_of_lt hi, hb⟩]
        omega
      · rw [if_neg (fun hc => hb hc.2), if_neg (fun hc => hb hc.2)]
        omega
  have hmem : ∀ i ∈ List.range' 1 (n - 1), i < inst.lessons_per_day := by
    intro i hi
    have := mem_range'_bounds hi
    omega
  rw [key _ _ hmem]

theorem lesson_time_formula_witness :
    calculate_lesson_time exI 3 =
      (format_time (start_minutes exI + claimed_lesson_offset exI 3),
       format_time (start_minutes exI + claimed_lesson_offset exI 3 +
         exI.lesson_duration)) ∧
    calculate_lesson_time exI 1 = ("09:00", "10:10") ∧
    calculate_lesson_time exI 2 = ("10:20", "11:30") ∧
    calculate_lesson_time exI 3 = ("11:50", "13:00") :=
  ⟨lesson_time_formula exI 3 (by decide) (by decide),
   by decide, by decide, by decide⟩

/-! ## C7 — home-classroom scoring dominance -/

theorem find_classroom_of_mem {cs : List Classroom} {c : Classroom}
    (hnodup : (cs.map (fun x => x.id)).Nodup) (hc : c ∈ cs) :
    cs.find? (fun x => x.id == c.id) = some c := by
  induction cs with
  | nil => simp at hc
  | cons d rest ih =>
    rw [List.map_cons, List.nodup_cons] at hnodup
    rcases List.mem_cons.mp hc with hh | hh
    · subst hh
      rw [List.find?_cons_of_pos _ (by simp)]
    · have hne : (d.id == c.id) = false := by
        have : d.id ≠ c.id := fun he =>
          hnodup.1 (he ▸ List.mem_map_of_mem (fun x => x.id) hh)
        simp [this]
      rw [List.find?_cons_of_neg _ (by simp [hne]), ih hnodup.2 hh]

/-- Evaluate `score_spec_bonus` through the classroom lookup (classroom ids
are primary keys in the data model, hence pairwise distinct). -/
theorem score_spec_bonus_eval (g : ScheduleGenerator) (slot : ScheduleSlot)
    (r : LessonRequirement) (c : Classroom)
    (hnodup : (g.classrooms.map (fun x => x.id)).Nodup)
    (hc : c ∈ g.classrooms) (hid : slot.classroom_id = c.id) :
    score_spec_bonus g slot r
      = if is_specialized_for c r.subject_id then 50 else 0 := by
  unfold score_spec_bonus
  rw [hid, find_classroom_of_mem hnodup hc]

/-- A classroom offered by the lab branch of the slot finder is one of the
generator's classrooms and is specialized for the subject exactly when some
specialized classroom for the subject exists. -/
theorem mem_suitable_lab {g : ScheduleGenerator} {sid tid : String} {c : Classroom}
    (hc : c ∈ get_suitable_classrooms_for_teacher g "lab" sid tid) :
    c ∈ g.classrooms ∧
    is_specialized_for c sid
      = !(get_specialized_classrooms_for_subject g sid).isEmpty := by
  unfold get_suitable_classrooms_for_teacher at hc
  rw [if_pos (show (("lab" : String) == "lab") = true from rfl)] at hc
  by_cases hsp : (get_specialized_classrooms_for_subject g sid).isEmpty = true
  · rw [if_pos hsp] at hc
    obtain ⟨hmem, hpred⟩ := List.mem_filter.mp hc
    refine ⟨hmem, ?_⟩
    rw [hsp]
    cases hspec : is_specialized_for c sid with
    | false => rfl
    | true =>
      have hin : c ∈ get_specialized_classrooms_for_subject g sid :=
        List.mem_filter.mpr ⟨hmem, hspec⟩
      have : get_specialized_classrooms_for_subject g sid = [] := by
        cases hl : get_specialized_classrooms_for_subject g sid with
        | nil => rfl
        | cons a l => rw [hl] at hsp; simp at hsp
      rw [this] at hin
      simp at hin
  · rw [if_neg hsp] at hc
    obtain ⟨hmem, hpred⟩ := List.mem_filter.mp hc
    refine ⟨hmem, ?_⟩
    have hf : (get_specialized_classrooms_for_subject g sid).isEmpty = false := by
      cases hb : (get_specialized_classrooms_for_subject g sid).isEmpty
      · rfl
      · exact absurd hb hsp
    rw [hpred, hf]
    rfl

/-- A classroom offered by the theory branch of the slot finder is one of
the generator's classrooms of type `teacher_lab` or `theory`. -/
theorem mem_suitable_theory {g : ScheduleGenerator} {ty sid tid : String}
    {c : Classroom} (hty : (ty == "lab") = false)
    (hc : c ∈ get_suitable_classrooms_for_teacher g ty sid tid) :
    c ∈ g.classrooms ∧ (c.type = "teacher_lab" ∨ c.type = "theory") := by
  unfold get_suitable_classrooms_for_teacher at hc
  rw [if_neg (by simp [hty])] at hc
  rw [List.append_assoc, List.mem_append] at hc
  rcases hc with hc | hc
  · unfold own_teacher_lab at hc
    split at hc
    · split at hc
      · split at hc
        · simp at hc
        · split at hc
          · next lab hlab =>
            split at hc
            · next hlabty =>
              have hcl : c = lab := by simpa using hc
              subst hcl
              exact ⟨List.mem_of_find?_eq_some hlab, Or.inl (by simpa using hlabty)⟩
            · simp at hc
          · simp at hc
      · simp at hc
    · simp at hc
  · rw [List.mem_append] at hc
    rcases hc with hc | hc
    · obtain ⟨hmem, hpred⟩ := List.mem_filter.mp hc
      exact ⟨hmem, Or.inr (by simpa using hpred)⟩
    · obtain ⟨hmem, hpred⟩ := List.mem_filter.mp hc
      rw [Bool.and_eq_true] at hpred
      exact ⟨hmem, Or.inl (by simpa using hpred.1)⟩

theorem score_day_term_congr (g : ScheduleGenerator) {a b : ScheduleSlot}
    (h : a.day = b.day) : score_day_term g a = score_day_term g b := by
  unfold score_day_term; rw [h]

theorem score_lesson_term_congr (g : ScheduleGenerator) {a b : ScheduleSlot}
    (h : a.lesson_number = b.lesson_number) :
    score_lesson_term g a = score_lesson_term g b := by
  unfold score_lesson_term; rw [h]

theorem score_group_load_congr (g : ScheduleGenerator) {a b : ScheduleSlot}
    (h1 : a.class_group_id = b.class_group_id) (h2 : a.day = b.day) :
    score_group_load_term g a = score_group_load_term g b := by
  unfold score_group_load_term; rw [h1, h2]

theorem score_consecutive_congr (g : ScheduleGenerator) (r : LessonRequirement)
    {a b : ScheduleSlot}
    (h1 : a.class_group_id = b.class_group_id) (h2 : a.subject_id = b.subject_id)
    (h3 : a.day = b.day) (h4 : a.lesson_number = b.lesson_number) :
    score_consecutive_bonus g a r = score_consecutive_bonus g b r := by
  unfold score_consecutive_bonus; rw [h1, h2, h3, h4]

/-- Claim C7: two slot-finder candidates for the same requirement that agree
on day, lesson, group, subject and teacher but differ in classroom, where
the first uses the candidate teacher's home classroom, score exactly 100
apart (so at least 100), and the selector picks the home-classroom
candidate from the pair in either order.  Classroom ids are assumed
pairwise distinct (they are primary keys). -/
theorem home_classroom_dominance (g : ScheduleGenerator) (r : LessonRequirement)
    (s1 s2 : ScheduleSlot) (t : Teacher)
    (hnodup : (g.classrooms.map (fun c => c.id)).Nodup)
    (h1 : s1 ∈ find_available_slots g r) (h2 : s2 ∈ find_available_slots g r)
    (hday : s1.day = s2.day) (hnum : s1.lesson_number = s2.lesson_number)
    (hteach : s1.teacher_id = s2.teacher_id)
    (hcls : s1.classroom_id ≠ s2.classroom_id)
    (ht : g.teachers.find? (fun x => x.id == s1.teacher_id) = some t)
    (hhome : t.home_classroom = some s1.classroom_id) :
    score_slot g s1 r = score_slot g s2 r + 100 ∧
    select_best_slot g [s1, s2] r = some s1 ∧
    select_best_slot g [s2, s1] r = some s1 := by
  obtain ⟨hg1, hj1, -, -, -, c1, hc1mem, hc1id⟩ := find_slots_spec g r s1 h1
  obtain ⟨hg2, hj2, -, -, -, c2, hc2mem, hc2id⟩ := find_slots_spec g r s2 h2
  have hgg : s1.class_group_id = s2.class_group_id := by rw [hg1, hg2]
  have hss : s1.subject_id = s2.subject_id := by rw [hj1, hj2]
  have hhome1 : score_home_bonus g s1 = 100 := by
    unfold score_home_bonus
    rw [ht]
    show (if (t.home_classroom == some s1.classroom_id) = true then (100 : Int) else 0)
      = 100
    rw [hhome]
    simp
  have hhome2 : score_home_bonus g s2 = 0 := by
    unfold score_home_bonus
    rw [← hteach, ht]
    show (if (t.home_classroom == some s2.classroom_id) = true then (100 : Int) else 0)
      = 0
    rw [hhome]
    have : ((some s1.classroom_id : Option String) == some s2.classroom_id) = false := by
      simp [hcls]
    rw [this]
    rfl
  have hsb : score_spec_bonus g s1 r = score_spec_bonus g s2 r := by
    by_cases hlab : (r.subject_type == "lab") = true
    · have hty : r.subject_type = "lab" := by simpa using hlab
      rw [hty] at hc1mem hc2mem
      have e1 := mem_suitable_lab hc1mem
      have e2 := mem_suitable_lab hc2mem
      rw [score_spec_bonus_eval g s1 r c1 hnodup e1.1 hc1id,
        score_spec_bonus_eval g s2 r c2 hnodup e2.1 hc2id,
        e1.2, e2.2]
    · have hty : (r.subject_type == "lab") = false := by
        cases hb : (r.subject_type == "lab")
        · rfl
        · exact absurd hb hlab
      have e1 := mem_suitable_theory hty hc1mem
      have e2 := mem_suitable_theory hty hc2mem
      have f1 : is_specialized_for c1 r.subject_id = false := by
        unfold is_specialized_for
        rcases e1.2 with h | h <;> simp [h]
      have f2 : is_specialized_for c2 r.subject_id = false := by
        unfold is_specialized_for
        rcases e2.2 with h | h <;> simp [h]
      rw [score_spec_bonus_eval g s1 r c1 hnodup e1.1 hc1id,
        score_spec_bonus_eval g s2 r c2 hnodup e2.1 hc2id,
        f1, f2]
  have hmain : score_slot g s1 r = score_slot g s2 r + 100 := by
    unfold score_slot
    rw [score_day_term_congr g hday, score_lesson_term_congr g hnum,
      score_group_load_congr g hgg hday, score_consecutive_congr g r hgg hss hday hnum,
      hhome1, hhome2, hsb]
    omega
  refine ⟨hmain, ?_, ?_⟩
  · unfold select_best_slot
    simp only [List.foldl_cons, List.foldl_nil]
    rw [if_neg (by omega : ¬ score_slot g s2 r > score_slot g s1 r)]
  · unfold select_best_slot
    simp only [List.foldl_cons, List.foldl_nil]
    rw [if_pos (by omega : score_slot g s1 r > score_slot g s2 r)]

def exSlotHome : ScheduleSlot :=
  { id := "", day := "Monday", lesson_number := 1, class_group_id := "g1"
    subject_id := "s1", teacher_id := "t1", classroom_id := "c1"
    start_time := "09:00", end_time := "10:10" }

def exSlotOther : ScheduleSlot :=
  { id := "", day := "Monday", lesson_number := 1, class_group_id := "g1"
    subject_id := "s1", teacher_id := "t1", classroom_id := "c2"
    start_time := "09:00", end_time := "10:10" }

def exSlotHome2 : ScheduleSlot :=
  { id := "", day := "Monday", lesson_number := 2, class_group_id := "g1"
    subject_id := "s1", teacher_id := "t1", classroom_id := "c1"
    start_time := "10:20", end_time := "11:30" }

def exSlotOther2 : ScheduleSlot :=
  { id := "", day := "Monday", lesson_number := 2, class_group_id := "g1"
    subject_id := "s1", teacher_id := "t1", classroom_id := "c2"
    start_time := "10:20", end_time := "11:30" }

theorem exGen_slots :
    find_available_slots exGen exReq
      = [exSlotHome, exSlotOther, exSlotHome2, exSlotOther2] := by decide

theorem home_classroom_dominance_witness :
    score_slot exGen exSlotHome exReq = score_slot exGen exSlotOther exReq + 100 ∧
    select_best_slot exGen [exSlotHome, exSlotOther] exReq = some exSlotHome ∧
    select_best_slot exGen [exSlotOther, exSlotHome] exReq = some exSlotHome :=
  home_classroom_dominance exGen exReq exSlotHome exSlotOther exT
    (by decide)
    (by rw [exGen_slots]; exact List.Mem.head _)
    (by rw [exGen_slots]; exact List.Mem.tail _ (List.Mem.head _))
    rfl rfl rfl (by decide) (by decide) rfl

/-! ## C4 — overall success semantics -/

theorem log_preserves_schedule (g : ScheduleGenerator) (m : String) :
    (log g m).schedule = g.schedule := rfl

theorem foldl_preserves_schedule {α : Type}
    (f : ScheduleGenerator → α → ScheduleGenerator)
    (hf : ∀ acc x, (f acc x).schedule = acc.schedule) :
    ∀ (l : List α) (g : ScheduleGenerator), (l.foldl f g).schedule = g.schedule := by
  intro l
  induction l with
  | nil => intro g; rfl
  | cons x xs ih => intro g; rw [List.foldl_cons, ih, hf]

theorem distribution_warning_step_schedule (g acc : ScheduleGenerator)
    (group : ClassGroup) :
    (distribution_warning_step g acc group).schedule = acc.schedule := by
  unfold distribution_warning_step
  split <;> rfl

theorem spec_lab_report_step_schedule (g acc : ScheduleGenerator) (lab : Classroom) :
    (spec_lab_report_step g acc lab).schedule = acc.schedule := by
  unfold spec_lab_report_step
  split <;> split <;> rfl

theorem teacher_lab_report_step_schedule (g acc : ScheduleGenerator) (lab : Classroom) :
    (teacher_lab_report_step g acc lab).schedule = acc.schedule := by
  unfold teacher_lab_report_step
  split
  · split <;> rfl
  · rfl

/-- `_optimize_schedule_distribution` is read-only on the committed
schedule: it only appends log lines. -/
theorem optimize_preserves_schedule (g : ScheduleGenerator) :
    (optimize_schedule_distribution g).schedule = g.schedule := by
  unfold optimize_schedule_distribution
  rw [log_preserves_schedule,
    foldl_preserves_schedule _ (teacher_lab_report_step_schedule g),
    foldl_preserves_schedule _ (spec_lab_report_step_schedule g),
    foldl_preserves_schedule _ (distribution_warning_step_schedule g),
    log_preserves_schedule]

/-- Claim C4: when validation passes (and no exception-raising input is
present — a positive `academic_weeks` and a parseable `start_time`), the
run succeeds iff at least one requirement was scheduled; zero scheduled
gives `success = false` with the generic message and an empty schedule,
one or more gives `success = true` carrying the loop's accumulated schedule
regardless of how many requirements failed. -/
theorem generate_schedule_success_semantics (g : ScheduleGenerator)
    (hv : validate_input_data g = none)
    (_hw : 0 < g.institution.academic_weeks)
    (_ht : (parse_time_mins g.institution.start_time).isSome = true) :
    ((generate_schedule g).success = true ↔ 0 < scheduled_count g) ∧
    (scheduled_count g = 0 →
      (generate_schedule g).schedule = [] ∧
      (generate_schedule g).error
        = some "No lessons could be scheduled. Check teacher availability and classroom assignments.") ∧
    (0 < scheduled_count g →
      (generate_schedule g).error = none ∧
      (generate_schedule g).schedule
        = (scheduling_pass (reset_run_state g)).1.schedule) := by
  have hv' : validate_input_data
      (reset_run_state (log g "🚀 Starting smart schedule generation...")) = none := hv
  have hgen : generate_schedule g
      = finalize_run (scheduling_pass (reset_run_state g)) := by
    unfold generate_schedule
    rw [hv']
    rfl
  have hsc : scheduled_count g = (scheduling_pass (reset_run_state g)).2.1 := rfl
  rw [hgen, hsc]
  unfold finalize_run
  by_cases h0 : ((scheduling_pass (reset_run_state g)).2.1 == 0) = true
  · have h0' : (scheduling_pass (reset_run_state g)).2.1 = 0 := by simpa using h0
    rw [if_pos h0, h0']
    refine ⟨by simp, fun _ => ⟨rfl, rfl⟩, fun hlt => absurd hlt (by omega)⟩
  · have h0' : (scheduling_pass (reset_run_state g)).2.1 ≠ 0 := by simpa using h0
    rw [if_neg h0]
    refine ⟨by simpa using Nat.pos_of_ne_zero h0', fun he => absurd he h0', fun _ => ?_⟩
    exact ⟨rfl, by rw [optimize_preserves_schedule, log_preserves_schedule]⟩

theorem generate_schedule_success_semantics_witness :
    validate_input_data exGen = none ∧
    (((generate_schedule exGen).success = true ↔ 0 < scheduled_count exGen) ∧
      (scheduled_count exGen = 0 →
        (generate_schedule exGen).schedule = [] ∧
        (generate_schedule exGen).error
          = some "No lessons could be scheduled. Check teacher availability and classroom assignments.") ∧
      (0 < scheduled_count exGen →
        (generate_schedule exGen).error = none ∧
        (generate_schedule exGen).schedule
          = (scheduling_pass (reset_run_state exGen)).1.schedule)) ∧
    (generate_schedule exGen).success = true ∧ scheduled_count exGen = 1 :=
  ⟨by decide,
   generate_schedule_success_semantics exGen (by decide) (by decide) (by decide),
   by decide, by decide⟩

/-! ## C8 — logs on validation failure -/

def exBadGen : ScheduleGenerator :=
  { institution := exI, class_groups := [], subjects := [exS]
    teachers := [exT], classrooms := [exC2], schedule := [], logs := [] }

/-- Claim C8 evaluated on a failing input: the source logs the start banner
*before* executing `self.logs = []`, so a validation failure returns an
*empty* `logs` list, contradicting the claim that `logs` is always
non-empty.  (On the post-validation paths `logs` is non-empty, starting
with the validation-passed line.) -/
theorem validation_failure_empty_logs :
    (generate_schedule exBadGen).success = false ∧
    (generate_schedule exBadGen).error = some "No class groups configured" ∧
    (generate_schedule exBadGen).schedule = [] ∧
    (generate_schedule exBadGen).logs = [] := by decide

/-! ## C9 — diagnostics classroom sub-branches -/

/-- Counterexample to claim C9 (negation of its reachability assertion):
`_get_suitable_classrooms_for_subject_type` ignores bookings, so whenever
the diagnostics' classroom check finds it empty, the specialized-lab list
and the general-lab list (for lab subjects), respectively the theory-room
list (for other subjects), are themselves empty — the guards of the
"specialized labs … are unavailable", "All … general laboratory classrooms
are unavailable" and "All … theory classrooms are unavailable" messages can
never hold, so no input produces those sub-branches. -/
theorem diagnostics_subbranches_dead :
    (∀ (g : ScheduleGenerator) (sid : String),
      get_suitable_classrooms_for_subject_type g "lab" sid = [] →
        get_specialized_classrooms_for_subject g sid = [] ∧
        g.classrooms.filter (fun c => c.type == "lab" && !(spec_truthy c.specialization))
          = []) ∧
    (∀ (g : ScheduleGenerator) (ty sid : String), (ty == "lab") = false →
      get_suitable_classrooms_for_subject_type g ty sid = [] →
        g.classrooms.filter (fun c => c.type == "theory" || c.type == "teacher_lab")
          = []) := by
  constructor
  · intro g sid h
    unfold get_suitable_classrooms_for_subject_type at h
    rw [if_pos (show (("lab" : String) == "lab") = true from rfl)] at h
    by_cases hsp : (get_specialized_classrooms_for_subject g sid).isEmpty = true
    · rw [if_pos hsp] at h
      refine ⟨?_, h⟩
      cases hl : get_specialized_classrooms_for_subject g sid with
      | nil => rfl
      | cons a l => rw [hl] at hsp; simp at hsp
    · rw [if_neg hsp] at h
      rw [h] at hsp
      simp at hsp
  · intro g ty sid hty h
    unfold get_suitable_classrooms_for_subject_type at h
    rw [if_neg (by simp [hty])] at h
    exact h

def exGenOnlyTheoryRoom : ScheduleGenerator :=
  { institution := exI, class_groups := [exG]
    subjects := [{ id := "s2", name := "Chemistry", type := "lab", teacher_ids := ["t1"] }]
    teachers := [exT], classrooms := [exC2], schedule := [], logs := [] }

def exGenOnlyLabRoom : ScheduleGenerator :=
  { institution := exI, class_groups := [exG]
    subjects := [{ id := "s1", name := "History", type := "theory", teacher_ids := ["t1"] }]
    teachers := [exT], classrooms := [exLab2], schedule := [], logs := [] }

def exLabReq : LessonRequirement :=
  { id := "g1-s2-0", group_id := "g1", group_name := "Group A"
    subject_id := "s2", subject_name := "Chemistry", subject_type := "lab"
    available_teacher_ids := ["t1"], priority := 0 }

def exTheoryReq : LessonRequirement :=
  { id := "g1-s1-0", group_id := "g1", group_name := "Group A"
    subject_id := "s1", subject_name := "History", subject_type := "theory"
    available_teacher_ids := ["t1"], priority := 0 }

/-- Amended claim C9: when the diagnostics reaches the classroom check and
finds no suitable classroom, it emits one critical message and stops (no
time-conflict scan); the only reachable sub-branches are "no laboratory
classrooms available in the system" for lab subjects and "no theory
classrooms available in the system" for others, each produced by the
concrete inputs below. -/
theorem diagnostics_reachable_subbranches :
    (analyze_scheduling_failure exGenOnlyTheoryRoom exLabReq).logs =
      ["❌ Failed to schedule: Chemistry for Group A",
       "   🚫 CRITICAL: No laboratory classrooms available in the system"] ∧
    (analyze_scheduling_failure exGenOnlyLabRoom exTheoryReq).logs =
      ["❌ Failed to schedule: History for Group A",
       "   🚫 CRITICAL: No theory classrooms available in the system"] := by decide

end Sched
